import Mathlib

/-!
Shallow embedding of `teaching_pipeline.py` (class `Pipeline`): the regex-based
parameter extractors `_extract_knowledge_point`, `_extract_teaching_method` and
`_extract_difficulty`, the entry point `pipe`, and the streaming renderer
`_stream_response`, together with theorems settling the specification claims.

The Python `re.search` calls use only a small set of regex constructs:
literal runs, single-character classes (mandatory or with a greedy `?`),
a greedy `\s*`, a greedy `\d+` group, and a lazy `(.*?)` group (optionally
with a literal tail inside the group).  The matcher below implements
leftmost search with Python's ordered-backtracking semantics for exactly
these constructs, and the seven patterns of the source are transcribed as
data.  The HTTP call `requests.post` is modelled by an oracle argument
describing the remote endpoint's behaviour for this invocation (a response,
or a raised exception); a Python generator is modelled by the full list of
chunks it yields when consumed to the end.
-/

namespace TeachingPipeline

/-- The single-quote character, written via its code point. -/
def sq : Char := Char.ofNat 39

/-- The double-quote character, written via its code point. -/
def dq : Char := Char.ofNat 34

/-- Whitespace as used by Python's `\s` and `str.strip`, over the ASCII range
(the full Unicode whitespace set is not needed by any claim). -/
def isPySpace (c : Char) : Bool :=
  c = ' ' || c = '\t' || c = '\n' || c = '\r' || c = Char.ofNat 11 || c = Char.ofNat 12

/-- Python `str.strip()`: drop whitespace from both ends. -/
def pyStrip (cs : List Char) : List Char :=
  ((cs.dropWhile isPySpace).reverse.dropWhile isPySpace).reverse

/-- Python `str.lower()` (ASCII range, as needed by the keyword tests). -/
def pyLower (s : String) : String :=
  String.mk (s.data.map Char.toLower)

/-- Python `needle in hay` substring membership. -/
def subIn (needle : List Char) : List Char → Bool
  | [] => needle.isEmpty
  | c :: t => needle.isPrefixOf (c :: t) || subIn needle t

/-- Python `content.split(c)` for a single separator character. -/
def pySplit (sep : Char) : List Char → List (List Char)
  | [] => [[]]
  | c :: t =>
    if c = sep then [] :: pySplit sep t
    else
      match pySplit sep t with
      | [] => [[c]]
      | h :: hs => (c :: h) :: hs

/-- Non-group regex tokens appearing in the source's patterns: a literal run,
a mandatory single-character class, a single-character class with a greedy
`?`, and a greedy `\s*`. -/
inductive Tok
  | lit (cs : List Char)
  | cls1 (cs : List Char)
  | clsOpt (cs : List Char)
  | wsStar

/-- The capturing group of each source pattern: either a lazy `(.*?tail)`
where `tail` is a (possibly empty) literal run inside the group, or a
greedy `(\d+)`. -/
inductive Grp
  | lazyAny (tail : List Char)
  | digitsPlus

/-- A source pattern: tokens before the group, the group, tokens after it. -/
structure Pattern where
  pre : List Tok
  grp : Grp
  post : List Tok

/-- First success of `f` over a list of candidate values (backtracking order). -/
def firstSome {α : Type} (f : Nat → Option α) : List Nat → Option α
  | [] => none
  | j :: js =>
    match f j with
    | some r => some r
    | none => firstSome f js

/-- Match a token sequence at the head of `s`, then call the continuation `k`
on the remaining input.  Choice points follow Python's backtracking order:
a greedy optional class first tries to consume, a greedy `\s*` first tries
the longest whitespace run. -/
def matchToks (k : List Char → Option (List Char)) : List Tok → List Char → Option (List Char)
  | [], s => k s
  | .lit cs :: ts, s =>
    if cs.isPrefixOf s then matchToks k ts (s.drop cs.length) else none
  | .cls1 cs :: ts, s =>
    match s with
    | [] => none
    | c :: s2 => if cs.contains c then matchToks k ts s2 else none
  | .clsOpt cs :: ts, s =>
    match s with
    | [] => matchToks k ts []
    | c :: s2 =>
      if cs.contains c then
        match matchToks k ts s2 with
        | some r => some r
        | none => matchToks k ts s
      else matchToks k ts s
  | .wsStar :: ts, s =>
    let run := (s.takeWhile isPySpace).length
    firstSome (fun j => matchToks k ts (s.drop j)) ((List.range (run + 1)).reverse)

/-- Match the capturing group and then the post tokens, returning the text
captured by the group.  `(.*?tail)` is lazy: shorter consumptions of `.`
are preferred, `.` never matches a newline; `(\d+)` is greedy: longer digit
runs are preferred, at least one digit is required.  The overall match may
end anywhere (`re.search` does not anchor the end). -/
def grpMatch (g : Grp) (post : List Tok) (s : List Char) : Option (List Char) :=
  match g with
  | .lazyAny tail =>
    firstSome
      (fun j =>
        let pre := s.take j
        if pre.contains '\n' then none
        else
          let rest := s.drop j
          if tail.isPrefixOf rest then
            matchToks (fun _ => some (pre ++ tail)) post (rest.drop tail.length)
          else none)
      (List.range (s.length + 1))
  | .digitsPlus =>
    let run := (s.takeWhile Char.isDigit).length
    firstSome (fun j => matchToks (fun _ => some (s.take j)) post (s.drop j))
      ((List.range run).reverse.map (fun i => i + 1))

/-- Attempt a full pattern match starting exactly at the head of `s`. -/
def matchAt (p : Pattern) (s : List Char) : Option (List Char) :=
  matchToks (fun s2 => grpMatch p.grp p.post s2) p.pre s

/-- Python `re.search`: try the pattern at each start position from the left;
return the first group of the leftmost match. -/
def reSearch (p : Pattern) : List Char → Option (List Char)
  | [] => matchAt p []
  | c :: s2 =>
    match matchAt p (c :: s2) with
    | some r => some r
    | none => reSearch p s2

/-- The quote class `["']` used throughout the source's patterns. -/
def quoteCls : List Char := [dq, sq]

/-- Pattern 1 of `_extract_knowledge_point`: `关于["']?(.*?)['"]?的教学`. -/
def kpPat1 : Pattern :=
  ⟨[.lit ("关于".data), .clsOpt quoteCls], .lazyAny [], [.clsOpt [sq, dq], .lit ("的教学".data)]⟩

/-- Pattern 2 of `_extract_knowledge_point`: `知识点[：:]\s*["']?(.*?)["']?`. -/
def kpPat2 : Pattern :=
  ⟨[.lit ("知识点".data), .cls1 ['：', ':'], .wsStar, .clsOpt quoteCls], .lazyAny [],
    [.clsOpt quoteCls]⟩

/-- Pattern 3 of `_extract_knowledge_point`: `生成(.*?)的教学`. -/
def kpPat3 : Pattern :=
  ⟨[.lit ("生成".data)], .lazyAny [], [.lit ("的教学".data)]⟩

/-- Pattern 1 of `_extract_teaching_method`: `使用["']?(.*?教学法)["']?`. -/
def tmPat1 : Pattern :=
  ⟨[.lit ("使用".data), .clsOpt quoteCls], .lazyAny ("教学法".data), [.clsOpt quoteCls]⟩

/-- Pattern 2 of `_extract_teaching_method`: `教学方法[：:]\s*["']?(.*?)["']?`. -/
def tmPat2 : Pattern :=
  ⟨[.lit ("教学方法".data), .cls1 ['：', ':'], .wsStar, .clsOpt quoteCls], .lazyAny [],
    [.clsOpt quoteCls]⟩

/-- Pattern 3 of `_extract_teaching_method`: `采用["']?(.*?教学法)["']?`. -/
def tmPat3 : Pattern :=
  ⟨[.lit ("采用".data), .clsOpt quoteCls], .lazyAny ("教学法".data), [.clsOpt quoteCls]⟩

/-- The pattern of `_extract_difficulty`: `难度[级别]?[为是:：]?\s*(\d+)`. -/
def diffPat : Pattern :=
  ⟨[.lit ("难度".data), .clsOpt ['级', '别'], .clsOpt ['为', '是', ':', '：'], .wsStar],
    .digitsPlus, []⟩

/-- The `for pattern in patterns: ... if match: return ...` loop body: the
first pattern whose search succeeds yields its group. -/
def searchPats : List Pattern → List Char → Option (List Char)
  | [], _ => none
  | p :: ps, s =>
    match reSearch p s with
    | some g => some g
    | none => searchPats ps s

/-- `_extract_knowledge_point`: first matching pattern's group, stripped;
`None` if no pattern matches. -/
def extract_knowledge_point (message : String) : Option String :=
  match searchPats [kpPat1, kpPat2, kpPat3] message.data with
  | some g => some (String.mk (pyStrip g))
  | none => none

/-- `_extract_teaching_method`: first matching pattern's group, stripped;
`None` if no pattern matches. -/
def extract_teaching_method (message : String) : Option String :=
  match searchPats [tmPat1, tmPat2, tmPat3] message.data with
  | some g => some (String.mk (pyStrip g))
  | none => none

/-- `_extract_difficulty`: the digit group if the pattern matches, else `"3"`. -/
def extract_difficulty (message : String) : String :=
  match reSearch diffPat message.data with
  | some g => String.mk g
  | none => "3"

/-- Python truthiness test `not x` for `x` a string or `None`:
true on `None` and on the empty string. -/
def pyFalsy : Option String → Bool
  | none => true
  | some s => s == ""

/-- An exception value: `str(e)` and `traceback.format_exc()`. -/
structure PyExn where
  msg : String
  trace : String

/-- The observable behaviour of the `requests.post` response object for one
invocation: `status_code`, `text`, and the outcome of `response.json()`
followed by `result.get("teaching_note", {})` — either the teaching-note
dictionary (empty if the key is absent) or a raised exception. -/
structure HttpResponse where
  status_code : Nat
  text : String
  json : Except PyExn (List (String × String))

/-- The behaviour of the single `requests.post(self.api_url, json=payload)`
call: a response, or an exception raised by the call itself. -/
inductive PostResult
  | resp (r : HttpResponse)
  | exn (e : PyExn)

/-- The value `pipe` hands back to its caller: a plain string, or a
generator modelled by the list of chunks it yields when fully consumed. -/
inductive PipeOut
  | text (s : String)
  | stream (chunks : List String)

/-- Python `dict.get(key, default)` on the teaching-note dictionary. -/
def dictGet (d : List (String × String)) (key dflt : String) : String :=
  match d.lookup key with
  | some v => v
  | none => dflt

/-- The guidance string returned when a required parameter is missing
(source line 49). -/
def helpMessage : String :=
  "请提供完整的信息，包括知识点和教学方法。例如：\x27请生成关于牛顿第二定律的教学内容，使用探究式教学法，难度级别为4\x27"

/-- The top-level error string of `pipe`'s `except` clause (source line 105). -/
def batchErr (e : PyExn) : String :=
  "处理请求时出错: " ++ e.msg ++ "\n\n详细错误信息: " ++ e.trace

/-- The error chunk of `_stream_response`'s `except` clause (source line 192). -/
def streamErr (e : PyExn) : String :=
  "❌ 流式输出过程中出错: " ++ e.msg ++ "\n\n详细错误信息: " ++ e.trace

/-- The f-string template of the batch-mode markdown (source lines 76–98),
with the seven `teaching_note.get(...)` fields interpolated. -/
def formatBatch (knowledge_point difficulty : String)
    (teaching_note : List (String × String)) : String :=
  "# " ++ knowledge_point ++ " 教学设计 (" ++ difficulty ++ "级)" ++ "\n\n" ++
  "## 教学大纲\n" ++ dictGet teaching_note ("教学大纲") ("未生成") ++ "\n\n" ++
  "## 教学重点\n" ++ dictGet teaching_note ("教学重点") ("未生成") ++ "\n\n" ++
  "## 教学难点\n" ++ dictGet teaching_note ("教学难点") ("未生成") ++ "\n\n" ++
  "## 教学引入设计\n" ++ dictGet teaching_note ("教学引入设计") ("未生成") ++ "\n\n" ++
  "## 教学重点讲解设计\n" ++ dictGet teaching_note ("教学重点讲解设计") ("未生成") ++ "\n\n" ++
  "## 教学难点突破设计\n" ++ dictGet teaching_note ("教学难点突破设计") ("未生成") ++ "\n\n" ++
  "## 参考资料\n" ++ dictGet teaching_note ("参考资料") ("未提供参考资料") ++ "\n"

/-- The three chunks `_stream_response` yields before the HTTP call
(source lines 111–115). -/
def preludeChunks (knowledge_point difficulty : String) : List String :=
  ["# " ++ knowledge_point ++ " 教学设计 (" ++ difficulty ++ "级)\n\n",
   "正在生成教学内容，请稍候...\n\n",
   "🔍 正在检索与「" ++ knowledge_point ++ "」相关的知识...\n"]

/-- One section of the streaming output: the heading chunk, one chunk per
line of the content (split on line breaks), and — for every section except
the references — a trailing blank-line chunk. -/
def sectionChunks (heading content : String) (trailingBlank : Bool) : List String :=
  ("## " ++ heading ++ "\n") ::
    ((pySplit '\n' content.data).map (fun line => String.mk line ++ "\n") ++
      (if trailingBlank then ["\n"] else []))

/-- `_stream_response` (source lines 107–192), as the list of chunks the
generator yields when consumed to the end; the `time.sleep` pacing calls
yield nothing and are not modelled. -/
def streamChunks (knowledge_point teaching_method difficulty : String)
    (post : PostResult) : List String :=
  let pre := preludeChunks knowledge_point difficulty
  match post with
  | .exn e => pre ++ [streamErr e]
  | .resp r =>
    if r.status_code ≠ 200 then
      pre ++ ["❌ 生成教学内容失败: " ++ r.text]
    else
      match r.json with
      | .error e => pre ++ [streamErr e]
      | .ok teaching_note =>
        pre ++ ["✅ 知识检索完成！正在生成教学设计...\n\n"]
          ++ sectionChunks ("教学大纲") (dictGet teaching_note ("教学大纲") ("未生成")) true
          ++ sectionChunks ("教学重点") (dictGet teaching_note ("教学重点") ("未生成")) true
          ++ sectionChunks ("教学难点") (dictGet teaching_note ("教学难点") ("未生成")) true
          ++ sectionChunks ("教学引入设计") (dictGet teaching_note ("教学引入设计") ("未生成")) true
          ++ sectionChunks ("教学重点讲解设计") (dictGet teaching_note ("教学重点讲解设计") ("未生成")) true
          ++ sectionChunks ("教学难点突破设计") (dictGet teaching_note ("教学难点突破设计") ("未生成")) true
          ++ sectionChunks ("参考资料") (dictGet teaching_note ("参考资料") ("未提供参考资料")) false
          ++ ["\n✨ 教学内容生成完成！"]

/-- The `stream_mode` test of source line 62:
`"stream" in user_message.lower() or "流式" in user_message`. -/
def stream_mode (user_message : String) : Bool :=
  subIn ("stream".data) (pyLower user_message).data || subIn ("流式".data) user_message.data

/-- `Pipeline.pipe` (source lines 33–105).  `model_id`, `messages` and `body`
are accepted and ignored exactly as in the source; `post` is the behaviour
of the remote endpoint for this invocation's payload.  The `api_type`,
`use_advanced_rag` and `use_web_search` flags only enter the payload, whose
effect is absorbed into the `post` oracle. -/
def pipe (user_message : String) (model_id : String) (messages : List String)
    (body : List (String × String)) (post : PostResult) : PipeOut :=
  let knowledge_point := extract_knowledge_point user_message
  let teaching_method := extract_teaching_method user_message
  let difficulty := extract_difficulty user_message
  if pyFalsy knowledge_point || pyFalsy teaching_method then
    .text helpMessage
  else
    let kp := knowledge_point.getD ""
    let tm := teaching_method.getD ""
    if stream_mode user_message then
      .stream (streamChunks kp tm difficulty post)
    else
      match post with
      | .exn e => .text (batchErr e)
      | .resp r =>
        if r.status_code = 200 then
          match r.json with
          | .error e => .text (batchErr e)
          | .ok teaching_note => .text (formatBatch kp difficulty teaching_note)
        else
          .text ("生成教学内容失败: " ++ r.text)

/-- `hay` starts with `p` (stated on the underlying character lists). -/
def strStarts (hay p : String) : Prop := ∃ t : List Char, p.data ++ t = hay.data

/-- `hay` contains `n` as a contiguous substring (on character lists). -/
def strHas (hay n : String) : Prop := ∃ s t : List Char, s ++ (n.data ++ t) = hay.data

/-! ## Theorems -/

/-- Appending strings concatenates their character lists. -/
theorem data_append_eq (s t : String) : (s ++ t).data = s.data ++ t.data := rfl

/-- Claim C1: the specification reads the difficulty pattern as accepting an
optional full word `级别` after `难度`, and the code's own guidance example
uses `难度级别为4`; but the regex class `[级别]?` matches at most one
character, so that very example fails to match and the default `"3"` is
returned instead of `"4"`.  The forms with at most one such character
(`难度为5`) do extract the digits, and a message without the phrase yields
the default. -/
theorem C1_difficulty_level_example_fails :
    extract_difficulty ("难度级别为4") = "3" ∧
    extract_difficulty ("请生成关于牛顿第二定律的教学内容，使用探究式教学法，难度级别为4") = "3" ∧
    extract_difficulty ("难度为5") = "5" ∧
    extract_difficulty ("难度级为4") = "4" ∧
    extract_difficulty ("你好") = "3" := by
  refine ⟨by decide, by decide, by decide, by decide, by decide⟩

/-- Claim C2: in the pattern `教学方法[：:]\s*["']?(.*?)["']?` the lazy group
is followed only by an optional quote, so it always captures the empty
string; on `教学方法：讲授法` the extractor returns `""`, not `讲授法` as
the claim states. -/
theorem C2_teaching_method_label_captures_empty :
    extract_teaching_method ("教学方法：讲授法") = some "" ∧
    extract_teaching_method ("教学方法:启发式") = some "" := by
  refine ⟨by decide, by decide⟩

/-- Claim C3: in the pattern `知识点[：:]\s*["']?(.*?)["']?` the lazy group
is followed only by an optional quote, so it always captures the empty
string; on `知识点：牛顿第二定律` the extractor returns `""`, not
`牛顿第二定律` as the claim states. -/
theorem C3_knowledge_point_label_captures_empty :
    extract_knowledge_point ("知识点：牛顿第二定律") = some "" ∧
    extract_knowledge_point ("知识点: 电磁感应") = some "" := by
  refine ⟨by decide, by decide⟩

/-- Claim C4: when knowledge-point or teaching-method extraction yields
`None`, `pipe` returns the fixed guidance string, and the result is the
same for every behaviour of the remote endpoint — the endpoint is never
consulted. -/
theorem C4_missing_params_guidance (msg mid : String) (msgs : List String)
    (bodyArg : List (String × String))
    (h : extract_knowledge_point msg = none ∨ extract_teaching_method msg = none) :
    ∀ post : PostResult, pipe msg mid msgs bodyArg post = PipeOut.text helpMessage := by
  intro post
  unfold pipe
  rcases h with h | h <;> simp [h, pyFalsy]

/-- Witness for C4 at the concrete message `你好`, from which no pattern
extracts anything. -/
theorem C4_missing_params_guidance_witness :
    extract_teaching_method ("你好") = none ∧
    pipe ("你好") ("gpt-4") [] [] (.resp ⟨200, "", Except.ok []⟩) = PipeOut.text helpMessage :=
  ⟨by decide,
    C4_missing_params_guidance ("你好") ("gpt-4") [] [] (Or.inr (by decide)) _⟩

/-- Claim C9: `pipe` is deterministic in the message and the remote
response: the routing metadata `model_id`, `messages` and `body` do not
influence the output, and two invocations with the same message and the
same endpoint behaviour produce identical output. -/
theorem C9_pipe_deterministic (msg mid1 mid2 : String) (msgs1 msgs2 : List String)
    (b1 b2 : List (String × String)) (post : PostResult) :
    pipe msg mid1 msgs1 b1 post = pipe msg mid2 msgs2 b2 post := rfl

/-- Claim C10: an extraction result that is the empty string is treated
exactly like an absent one — Python's falsiness test sends `pipe` down the
missing-parameters path, returning the guidance string for every endpoint
behaviour, so no empty field is ever sent to the remote service. -/
theorem C10_empty_extraction_is_missing (msg mid : String) (msgs : List String)
    (bodyArg : List (String × String))
    (h : extract_knowledge_point msg = some "" ∨ extract_teaching_method msg = some "") :
    ∀ post : PostResult, pipe msg mid msgs bodyArg post = PipeOut.text helpMessage := by
  intro post
  unfold pipe
  rcases h with h | h <;> simp [h, pyFalsy]

/-- Witness for C10: on `关于力的教学，教学方法：讲授法` the knowledge point
extracts to `力` but the teaching method extracts to the empty string, and
`pipe` returns the guidance string. -/
theorem C10_empty_extraction_is_missing_witness :
    extract_knowledge_point ("关于力的教学，教学方法：讲授法") = some "力" ∧
    extract_teaching_method ("关于力的教学，教学方法：讲授法") = some "" ∧
    pipe ("关于力的教学，教学方法：讲授法") ("gpt-4") [] [] (.resp ⟨200, "", Except.ok []⟩) =
      PipeOut.text helpMessage :=
  ⟨by decide, by decide,
    C10_empty_extraction_is_missing ("关于力的教学，教学方法：讲授法") ("gpt-4") [] []
      (Or.inr (by decide)) _⟩

/-- Claim C5: on a validated invocation where the endpoint answers with a
non-200 status and body `B`, batch mode returns exactly
`生成教学内容失败: B`, and streaming mode yields its three prelude chunks
followed by a single final error chunk containing `B` — nothing, in
particular no section heading, follows it. -/
theorem C5_generation_failed (msg mid : String) (msgs : List String)
    (bodyArg : List (String × String)) (r : HttpResponse)
    (hkp : pyFalsy (extract_knowledge_point msg) = false)
    (htm : pyFalsy (extract_teaching_method msg) = false)
    (hs : r.status_code ≠ 200) :
    (stream_mode msg = false →
      pipe msg mid msgs bodyArg (.resp r) = PipeOut.text ("生成教学内容失败: " ++ r.text)) ∧
    (stream_mode msg = true →
      pipe msg mid msgs bodyArg (.resp r) =
        PipeOut.stream
          (preludeChunks ((extract_knowledge_point msg).getD "") (extract_difficulty msg) ++
            ["❌ 生成教学内容失败: " ++ r.text])) := by
  constructor
  · intro hsm
    unfold pipe
    simp [hkp, htm, hsm, hs]
  · intro hsm
    unfold pipe
    simp [hkp, htm, hsm, streamChunks, hs]

/-- Witness for C5 at a concrete validated message and a 500 response. -/
theorem C5_generation_failed_witness :
    pyFalsy (extract_knowledge_point ("关于力的教学，使用讲授教学法")) = false ∧
    ((stream_mode ("关于力的教学，使用讲授教学法") = false →
      pipe ("关于力的教学，使用讲授教学法") ("gpt-4") [] []
          (.resp ⟨500, "boom", Except.ok []⟩) =
        PipeOut.text ("生成教学内容失败: " ++ "boom")) ∧
    (stream_mode ("关于力的教学，使用讲授教学法") = true →
      pipe ("关于力的教学，使用讲授教学法") ("gpt-4") [] []
          (.resp ⟨500, "boom", Except.ok []⟩) =
        PipeOut.stream
          (preludeChunks ((extract_knowledge_point ("关于力的教学，使用讲授教学法")).getD "")
              (extract_difficulty ("关于力的教学，使用讲授教学法")) ++
            ["❌ 生成教学内容失败: " ++ "boom"]))) :=
  ⟨by decide,
    C5_generation_failed ("关于力的教学，使用讲授教学法") ("gpt-4") [] []
      ⟨500, "boom", Except.ok []⟩ (by decide) (by decide) (by decide)⟩

/-- Claim C7: the streaming chunk sequence is a finite list and always
closes with a terminal chunk.  On the success path the seven section
headings open their sections exactly once each, in the fixed source order,
and the completion marker is the final chunk; on a non-200 response, a
JSON-parsing exception, or an exception from the HTTP call itself, the
sequence is the three prelude chunks closed by a single error chunk. -/
theorem C7_stream_structure (kp tm d txt b : String) (st : Nat)
    (note : List (String × String)) (e : PyExn) (hs : st ≠ 200) :
    (∃ c1 c2 c3 c4 c5 c6 c7 : List String,
      streamChunks kp tm d (.resp ⟨200, txt, Except.ok note⟩) =
        preludeChunks kp d ++ ["✅ 知识检索完成！正在生成教学设计...\n\n"]
          ++ (("## 教学大纲\n" : String) :: c1)
          ++ (("## 教学重点\n" : String) :: c2)
          ++ (("## 教学难点\n" : String) :: c3)
          ++ (("## 教学引入设计\n" : String) :: c4)
          ++ (("## 教学重点讲解设计\n" : String) :: c5)
          ++ (("## 教学难点突破设计\n" : String) :: c6)
          ++ (("## 参考资料\n" : String) :: c7)
          ++ ["\n✨ 教学内容生成完成！"]) ∧
    streamChunks kp tm d (.resp ⟨st, b, Except.ok note⟩) =
      preludeChunks kp d ++ ["❌ 生成教学内容失败: " ++ b] ∧
    streamChunks kp tm d (.resp ⟨200, txt, Except.error e⟩) =
      preludeChunks kp d ++ [streamErr e] ∧
    streamChunks kp tm d (.exn e) = preludeChunks kp d ++ [streamErr e] := by
  refine ⟨⟨?_, ?_, ?_, ?_, ?_, ?_, ?_, ?_⟩, ?_, ?_, ?_⟩
  · exact (pySplit '\n' (dictGet note ("教学大纲") ("未生成")).data).map
      (fun line => String.mk line ++ "\n") ++ ["\n"]
  · exact (pySplit '\n' (dictGet note ("教学重点") ("未生成")).data).map
      (fun line => String.mk line ++ "\n") ++ ["\n"]
  · exact (pySplit '\n' (dictGet note ("教学难点") ("未生成")).data).map
      (fun line => String.mk line ++ "\n") ++ ["\n"]
  · exact (pySplit '\n' (dictGet note ("教学引入设计") ("未生成")).data).map
      (fun line => String.mk line ++ "\n") ++ ["\n"]
  · exact (pySplit '\n' (dictGet note ("教学重点讲解设计") ("未生成")).data).map
      (fun line => String.mk line ++ "\n") ++ ["\n"]
  · exact (pySplit '\n' (dictGet note ("教学难点突破设计") ("未生成")).data).map
      (fun line => String.mk line ++ "\n") ++ ["\n"]
  · exact (pySplit '\n' (dictGet note ("参考资料") ("未提供参考资料")).data).map
      (fun line => String.mk line ++ "\n")
  · simp [streamChunks, sectionChunks, List.append_assoc]
  · simp [streamChunks, hs]
  · simp [streamChunks]
  · simp [streamChunks]

/-- Witness for C7 at concrete parameters and a 500 status for the failure
conjunct. -/
theorem C7_stream_structure_witness :
    (∃ c1 c2 c3 c4 c5 c6 c7 : List String,
      streamChunks ("力") ("讲授教学法") ("3") (.resp ⟨200, "", Except.ok []⟩) =
        preludeChunks ("力") ("3") ++ ["✅ 知识检索完成！正在生成教学设计...\n\n"]
          ++ (("## 教学大纲\n" : String) :: c1)
          ++ (("## 教学重点\n" : String) :: c2)
          ++ (("## 教学难点\n" : String) :: c3)
          ++ (("## 教学引入设计\n" : String) :: c4)
          ++ (("## 教学重点讲解设计\n" : String) :: c5)
          ++ (("## 教学难点突破设计\n" : String) :: c6)
          ++ (("## 参考资料\n" : String) :: c7)
          ++ ["\n✨ 教学内容生成完成！"]) ∧
    streamChunks ("力") ("讲授教学法") ("3") (.resp ⟨500, "boom", Except.ok []⟩) =
      preludeChunks ("力") ("3") ++ ["❌ 生成教学内容失败: " ++ "boom"] ∧
    streamChunks ("力") ("讲授教学法") ("3") (.resp ⟨200, "", Except.error ⟨"oops", "tb"⟩⟩) =
      preludeChunks ("力") ("3") ++ [streamErr ⟨"oops", "tb"⟩] ∧
    streamChunks ("力") ("讲授教学法") ("3") (.exn ⟨"oops", "tb"⟩) =
      preludeChunks ("力") ("3") ++ [streamErr ⟨"oops", "tb"⟩] :=
  C7_stream_structure ("力") ("讲授教学法") ("3") "" "boom" 500 [] ⟨"oops", "tb"⟩ (by decide)

/-- Claim C8: `pipe` is a total function into plain results — its caller
always receives either a string or a chunk list, never a propagated
exception.  An exception raised by the HTTP call or by JSON parsing is
turned into the descriptive top-level error string in batch mode, and the
streaming generator likewise ends its chunk list with the descriptive error
chunk instead of raising while being consumed. -/
theorem C8_no_exception_escapes (msg mid : String) (msgs : List String)
    (bodyArg : List (String × String)) (e : PyExn) (txt : String) :
    (∀ post : PostResult,
      (∃ s, pipe msg mid msgs bodyArg post = PipeOut.text s) ∨
      (∃ chunks, pipe msg mid msgs bodyArg post = PipeOut.stream chunks)) ∧
    (pyFalsy (extract_knowledge_point msg) = false →
      pyFalsy (extract_teaching_method msg) = false →
      stream_mode msg = false →
      pipe msg mid msgs bodyArg (.exn e) = PipeOut.text (batchErr e) ∧
      pipe msg mid msgs bodyArg (.resp ⟨200, txt, Except.error e⟩) =
        PipeOut.text (batchErr e)) ∧
    (∀ kp tm d, (streamChunks kp tm d (.exn e)).getLast? = some (streamErr e) ∧
      (streamChunks kp tm d (.resp ⟨200, txt, Except.error e⟩)).getLast? =
        some (streamErr e)) := by
  refine ⟨?_, ?_, ?_⟩
  · intro post
    cases h : pipe msg mid msgs bodyArg post with
    | text s => exact Or.inl ⟨s, rfl⟩
    | stream chunks => exact Or.inr ⟨chunks, rfl⟩
  · intro hkp htm hsm
    constructor
    · unfold pipe
      simp [hkp, htm, hsm]
    · unfold pipe
      simp [hkp, htm, hsm]
  · intro kp tm d
    constructor
    · simp [streamChunks, preludeChunks, List.getLast?]
    · simp [streamChunks, preludeChunks, List.getLast?]

/-- Witness for C8 at a concrete validated message and exception value. -/
theorem C8_no_exception_escapes_witness :
    (∀ post : PostResult,
      (∃ s, pipe ("关于力的教学，使用讲授教学法") ("gpt-4") [] [] post = PipeOut.text s) ∨
      (∃ chunks, pipe ("关于力的教学，使用讲授教学法") ("gpt-4") [] [] post =
        PipeOut.stream chunks)) ∧
    (pyFalsy (extract_knowledge_point ("关于力的教学，使用讲授教学法")) = false →
      pyFalsy (extract_teaching_method ("关于力的教学，使用讲授教学法")) = false →
      stream_mode ("关于力的教学，使用讲授教学法") = false →
      pipe ("关于力的教学，使用讲授教学法") ("gpt-4") [] [] (.exn ⟨"oops", "tb"⟩) =
        PipeOut.text (batchErr ⟨"oops", "tb"⟩) ∧
      pipe ("关于力的教学，使用讲授教学法") ("gpt-4") [] []
          (.resp ⟨200, "", Except.error ⟨"oops", "tb"⟩⟩) =
        PipeOut.text (batchErr ⟨"oops", "tb"⟩)) ∧
    (∀ kp tm d, (streamChunks kp tm d (.exn ⟨"oops", "tb"⟩)).getLast? =
        some (streamErr ⟨"oops", "tb"⟩) ∧
      (streamChunks kp tm d (.resp ⟨200, "", Except.error ⟨"oops", "tb"⟩⟩)).getLast? =
        some (streamErr ⟨"oops", "tb"⟩)) :=
  C8_no_exception_escapes ("关于力的教学，使用讲授教学法") ("gpt-4") [] [] ⟨"oops", "tb"⟩ ""

/-- Structure of the batch markdown when the teaching note holds exactly the
outline field: it starts with the title line, the outline section shows the
note's text, and the six other sections show their placeholder text. -/
theorem formatBatch_single_outline (kp d A : String) :
    strStarts (formatBatch kp d [("教学大纲", A)])
      ("# " ++ kp ++ " 教学设计 (" ++ d ++ "级)") ∧
    strHas (formatBatch kp d [("教学大纲", A)]) ("## 教学大纲\n" ++ A ++ "\n") ∧
    strHas (formatBatch kp d [("教学大纲", A)]) ("## 教学重点\n未生成\n") ∧
    strHas (formatBatch kp d [("教学大纲", A)]) ("## 教学难点\n未生成\n") ∧
    strHas (formatBatch kp d [("教学大纲", A)]) ("## 教学引入设计\n未生成\n") ∧
    strHas (formatBatch kp d [("教学大纲", A)]) ("## 教学重点讲解设计\n未生成\n") ∧
    strHas (formatBatch kp d [("教学大纲", A)]) ("## 教学难点突破设计\n未生成\n") ∧
    strHas (formatBatch kp d [("教学大纲", A)]) ("## 参考资料\n未提供参考资料\n") := by
  have hF : formatBatch kp d [("教学大纲", A)] =
      "# " ++ kp ++ " 教学设计 (" ++ d ++ "级)" ++ "\n\n" ++
      "## 教学大纲\n" ++ A ++ "\n\n" ++
      "## 教学重点\n" ++ "未生成" ++ "\n\n" ++
      "## 教学难点\n" ++ "未生成" ++ "\n\n" ++
      "## 教学引入设计\n" ++ "未生成" ++ "\n\n" ++
      "## 教学重点讲解设计\n" ++ "未生成" ++ "\n\n" ++
      "## 教学难点突破设计\n" ++ "未生成" ++ "\n\n" ++
      "## 参考资料\n" ++ "未提供参考资料" ++ "\n" := rfl
  refine ⟨?_, ?_, ?_, ?_, ?_, ?_, ?_, ?_⟩
  · refine ⟨("\n\n" ++ "## 教学大纲\n" ++ A ++ "\n\n" ++ "## 教学重点\n" ++ "未生成" ++
      "\n\n" ++ "## 教学难点\n" ++ "未生成" ++ "\n\n" ++ "## 教学引入设计\n" ++ "未生成" ++
      "\n\n" ++ "## 教学重点讲解设计\n" ++ "未生成" ++ "\n\n" ++ "## 教学难点突破设计\n" ++
      "未生成" ++ "\n\n" ++ "## 参考资料\n" ++ "未提供参考资料" ++ "\n").data, ?_⟩
    rw [hF]
    simp [data_append_eq]
  · refine ⟨("# " ++ kp ++ " 教学设计 (" ++ d ++ "级)" ++ "\n\n").data,
      ("\n" ++ "## 教学重点\n" ++ "未生成" ++ "\n\n" ++ "## 教学难点\n" ++ "未生成" ++
        "\n\n" ++ "## 教学引入设计\n" ++ "未生成" ++ "\n\n" ++ "## 教学重点讲解设计\n" ++
        "未生成" ++ "\n\n" ++ "## 教学难点突破设计\n" ++ "未生成" ++ "\n\n" ++
        "## 参考资料\n" ++ "未提供参考资料" ++ "\n").data, ?_⟩
    rw [hF]
    simp [data_append_eq]
  · refine ⟨("# " ++ kp ++ " 教学设计 (" ++ d ++ "级)" ++ "\n\n" ++ "## 教学大纲\n" ++ A ++
      "\n\n").data,
      ("\n" ++ "## 教学难点\n" ++ "未生成" ++ "\n\n" ++ "## 教学引入设计\n" ++ "未生成" ++
        "\n\n" ++ "## 教学重点讲解设计\n" ++ "未生成" ++ "\n\n" ++ "## 教学难点突破设计\n" ++
        "未生成" ++ "\n\n" ++ "## 参考资料\n" ++ "未提供参考资料" ++ "\n").data, ?_⟩
    rw [hF]
    simp [data_append_eq]
  · refine ⟨("# " ++ kp ++ " 教学设计 (" ++ d ++ "级)" ++ "\n\n" ++ "## 教学大纲\n" ++ A ++
      "\n\n" ++ "## 教学重点\n" ++ "未生成" ++ "\n\n").data,
      ("\n" ++ "## 教学引入设计\n" ++ "未生成" ++ "\n\n" ++ "## 教学重点讲解设计\n" ++
        "未生成" ++ "\n\n" ++ "## 教学难点突破设计\n" ++ "未生成" ++ "\n\n" ++
        "## 参考资料\n" ++ "未提供参考资料" ++ "\n").data, ?_⟩
    rw [hF]
    simp [data_append_eq]
  · refine ⟨("# " ++ kp ++ " 教学设计 (" ++ d ++ "级)" ++ "\n\n" ++ "## 教学大纲\n" ++ A ++
      "\n\n" ++ "## 教学重点\n" ++ "未生成" ++ "\n\n" ++ "## 教学难点\n" ++ "未生成" ++
      "\n\n").data,
      ("\n" ++ "## 教学重点讲解设计\n" ++ "未生成" ++ "\n\n" ++ "## 教学难点突破设计\n" ++
        "未生成" ++ "\n\n" ++ "## 参考资料\n" ++ "未提供参考资料" ++ "\n").data, ?_⟩
    rw [hF]
    simp [data_append_eq]
  · refine ⟨("# " ++ kp ++ " 教学设计 (" ++ d ++ "级)" ++ "\n\n" ++ "## 教学大纲\n" ++ A ++
      "\n\n" ++ "## 教学重点\n" ++ "未生成" ++ "\n\n" ++ "## 教学难点\n" ++ "未生成" ++
      "\n\n" ++ "## 教学引入设计\n" ++ "未生成" ++ "\n\n").data,
      ("\n" ++ "## 教学难点突破设计\n" ++ "未生成" ++ "\n\n" ++ "## 参考资料\n" ++
        "未提供参考资料" ++ "\n").data, ?_⟩
    rw [hF]
    simp [data_append_eq]
  · refine ⟨("# " ++ kp ++ " 教学设计 (" ++ d ++ "级)" ++ "\n\n" ++ "## 教学大纲\n" ++ A ++
      "\n\n" ++ "## 教学重点\n" ++ "未生成" ++ "\n\n" ++ "## 教学难点\n" ++ "未生成" ++
      "\n\n" ++ "## 教学引入设计\n" ++ "未生成" ++ "\n\n" ++ "## 教学重点讲解设计\n" ++
      "未生成" ++ "\n\n").data,
      ("\n" ++ "## 参考资料\n" ++ "未提供参考资料" ++ "\n").data, ?_⟩
    rw [hF]
    simp [data_append_eq]
  · refine ⟨("# " ++ kp ++ " 教学设计 (" ++ d ++ "级)" ++ "\n\n" ++ "## 教学大纲\n" ++ A ++
      "\n\n" ++ "## 教学重点\n" ++ "未生成" ++ "\n\n" ++ "## 教学难点\n" ++ "未生成" ++
      "\n\n" ++ "## 教学引入设计\n" ++ "未生成" ++ "\n\n" ++ "## 教学重点讲解设计\n" ++
      "未生成" ++ "\n\n" ++ "## 教学难点突破设计\n" ++ "未生成" ++ "\n\n").data,
      ([] : List Char), ?_⟩
    rw [hF]
    simp [data_append_eq]

/-- Claim C6: on a validated batch-mode invocation where the endpoint
returns status 200 with teaching note `{教学大纲: A}`, the returned
markdown is the batch template; it starts with the title line
`# {knowledge_point} 教学设计 ({difficulty}级)`, contains the line
`## 教学大纲` followed by `A`, and each of the six other sections shows its
placeholder text (`未生成`, and `未提供参考资料` for the references). -/
theorem C6_batch_success (msg mid : String) (msgs : List String)
    (bodyArg : List (String × String)) (kp A txt : String)
    (hkp : extract_knowledge_point msg = some kp) (hne : kp ≠ "")
    (htm : pyFalsy (extract_teaching_method msg) = false)
    (hsm : stream_mode msg = false) :
    pipe msg mid msgs bodyArg (.resp ⟨200, txt, Except.ok [("教学大纲", A)]⟩) =
      PipeOut.text (formatBatch kp (extract_difficulty msg) [("教学大纲", A)]) ∧
    (strStarts (formatBatch kp (extract_difficulty msg) [("教学大纲", A)])
      ("# " ++ kp ++ " 教学设计 (" ++ extract_difficulty msg ++ "级)") ∧
    strHas (formatBatch kp (extract_difficulty msg) [("教学大纲", A)])
      ("## 教学大纲\n" ++ A ++ "\n") ∧
    strHas (formatBatch kp (extract_difficulty msg) [("教学大纲", A)])
      ("## 教学重点\n未生成\n") ∧
    strHas (formatBatch kp (extract_difficulty msg) [("教学大纲", A)])
      ("## 教学难点\n未生成\n") ∧
    strHas (formatBatch kp (extract_difficulty msg) [("教学大纲", A)])
      ("## 教学引入设计\n未生成\n") ∧
    strHas (formatBatch kp (extract_difficulty msg) [("教学大纲", A)])
      ("## 教学重点讲解设计\n未生成\n") ∧
    strHas (formatBatch kp (extract_difficulty msg) [("教学大纲", A)])
      ("## 教学难点突破设计\n未生成\n") ∧
    strHas (formatBatch kp (extract_difficulty msg) [("教学大纲", A)])
      ("## 参考资料\n未提供参考资料\n")) := by
  refine ⟨?_, formatBatch_single_outline kp (extract_difficulty msg) A⟩
  have hb : (kp == "") = false := by
    cases hx : kp == "" with
    | false => rfl
    | true => exact absurd (by simpa using hx) hne
  obtain ⟨tm, htm1, htm2⟩ :
      ∃ tm, extract_teaching_method msg = some tm ∧ (tm == "") = false := by
    cases hx : extract_teaching_method msg with
    | none => rw [hx] at htm; simp [pyFalsy] at htm
    | some tm => rw [hx] at htm; exact ⟨tm, rfl, by simpa [pyFalsy] using htm⟩
  unfold pipe
  simp [hkp, htm1, hsm, pyFalsy, hb, htm2]

/-- Witness for C6 at the guidance string's own example message and the
outline text `大纲内容`. -/
theorem C6_batch_success_witness :
    pipe ("请生成关于牛顿第二定律的教学内容，使用探究式教学法，难度级别为4") ("gpt-4") [] []
        (.resp ⟨200, "", Except.ok [("教学大纲", "大纲内容")]⟩) =
      PipeOut.text
        (formatBatch ("牛顿第二定律")
          (extract_difficulty ("请生成关于牛顿第二定律的教学内容，使用探究式教学法，难度级别为4"))
          [("教学大纲", "大纲内容")]) ∧
    (strStarts
      (formatBatch ("牛顿第二定律")
        (extract_difficulty ("请生成关于牛顿第二定律的教学内容，使用探究式教学法，难度级别为4"))
        [("教学大纲", "大纲内容")])
      ("# " ++ "牛顿第二定律" ++ " 教学设计 (" ++
        extract_difficulty ("请生成关于牛顿第二定律的教学内容，使用探究式教学法，难度级别为4") ++ "级)") ∧
    strHas
      (formatBatch ("牛顿第二定律")
        (extract_difficulty ("请生成关于牛顿第二定律的教学内容，使用探究式教学法，难度级别为4"))
        [("教学大纲", "大纲内容")])
      ("## 教学大纲\n" ++ "大纲内容" ++ "\n") ∧
    strHas
      (formatBatch ("牛顿第二定律")
        (extract_difficulty ("请生成关于牛顿第二定律的教学内容，使用探究式教学法，难度级别为4"))
        [("教学大纲", "大纲内容")])
      ("## 教学重点\n未生成\n") ∧
    strHas
      (formatBatch ("牛顿第二定律")
        (extract_difficulty ("请生成关于牛顿第二定律的教学内容，使用探究式教学法，难度级别为4"))
        [("教学大纲", "大纲内容")])
      ("## 教学难点\n未生成\n") ∧
    strHas
      (formatBatch ("牛顿第二定律")
        (extract_difficulty ("请生成关于牛顿第二定律的教学内容，使用探究式教学法，难度级别为4"))
        [("教学大纲", "大纲内容")])
      ("## 教学引入设计\n未生成\n") ∧
    strHas
      (formatBatch ("牛顿第二定律")
        (extract_difficulty ("请生成关于牛顿第二定律的教学内容，使用探究式教学法，难度级别为4"))
        [("教学大纲", "大纲内容")])
      ("## 教学重点讲解设计\n未生成\n") ∧
    strHas
      (formatBatch ("牛顿第二定律")
        (extract_difficulty ("请生成关于牛顿第二定律的教学内容，使用探究式教学法，难度级别为4"))
        [("教学大纲", "大纲内容")])
      ("## 教学难点突破设计\n未生成\n") ∧
    strHas
      (formatBatch ("牛顿第二定律")
        (extract_difficulty ("请生成关于牛顿第二定律的教学内容，使用探究式教学法，难度级别为4"))
        [("教学大纲", "大纲内容")])
      ("## 参考资料\n未提供参考资料\n")) :=
  C6_batch_success ("请生成关于牛顿第二定律的教学内容，使用探究式教学法，难度级别为4") ("gpt-4")
    [] [] ("牛顿第二定律") ("大纲内容") "" (by decide) (by decide) (by decide) (by decide)

end TeachingPipeline
